import Mathlib

/-!
Verification of the k8s-sample-app heartbeat writer against its specification.

The repository contains four near-identical Flask services that periodically
write a timestamp row into one or more databases and expose Prometheus
metrics.  We shallowly embed the metric-relevant control flow of each variant:

* `Initial`   — src/initial/app1.py (SQLAlchemy engine, retrying init loop)
* `MultiDB`   — src/multidb-without-tracing/app.py (psycopg2, many targets)
* `Tracing`   — src/with-tracing/app.py (sqlite3 + OpenTelemetry)
* `SingleDB`  — src/without-tracing/app.py (psycopg2, one target)

Python strings are modelled as `List Char` so that every operation is a
structural recursion the kernel can evaluate.  Database I/O results are
oracle inputs; metric updates, retry loops, configuration parsing and the
health endpoint are translated line by line from the source.
-/

namespace PyStr

/-- Python strings, modelled as character lists. -/
abbrev Str := List Char

/-- Boolean prefix test on character lists. -/
def isPrefixList : Str → Str → Bool
  | [], _ => true
  | _ :: _, [] => false
  | a :: as, b :: bs => a == b && isPrefixList as bs

/-- Python's `pat in s` substring containment. -/
def containsSub (pat : Str) : Str → Bool
  | [] => isPrefixList pat []
  | c :: rest => isPrefixList pat (c :: rest) || containsSub pat rest

/-- Python's `str.lower()`. -/
def lower (s : Str) : Str := s.map Char.toLower

/-- Python's `str.upper()`. -/
def upper (s : Str) : Str := s.map Char.toUpper

/-- Python's `str.strip()`: drop whitespace from both ends. -/
def strip (s : Str) : Str :=
  ((s.dropWhile Char.isWhitespace).reverse.dropWhile Char.isWhitespace).reverse

/-- Python's `s.split(',')` for the single-character separator. -/
def splitComma : Str → List Str
  | [] => [[]]
  | c :: rest =>
      if c == ',' then [] :: splitComma rest
      else
        match splitComma rest with
        | [] => [[c]]
        | h :: t => (c :: h) :: t

/-- Python's `s.endswith(suffix)`. -/
def hasEnding (suffix s : Str) : Bool := isPrefixList suffix.reverse s.reverse

end PyStr

/-- Decidable equality on `Except`, used to evaluate startup results on
concrete environments. -/
instance {ε α : Type} [DecidableEq ε] [DecidableEq α] : DecidableEq (Except ε α) := fun x y =>
  match x, y with
  | .ok a, .ok b =>
      if h : a = b then isTrue (by rw [h]) else isFalse (by intro he; cases he; exact h rfl)
  | .ok _, .error _ => isFalse (by intro h; cases h)
  | .error _, .ok _ => isFalse (by intro h; cases h)
  | .error a, .error b =>
      if h : a = b then isTrue (by rw [h]) else isFalse (by intro he; cases he; exact h rfl)

namespace Initial

/-- Outcome of one connection attempt in `init_db_engine` (app1.py lines 59-98):
either a fresh engine (identified by a handle id), an exception from the
`(SQLAlchemyError, DBAPIError)` family carrying `str(e)`, or any other
exception. -/
inductive ConnectResult where
  | ok (engineId : Nat)
  | sqlErr (msg : PyStr.Str)
  | otherErr (msg : PyStr.Str)
deriving DecidableEq

/-- Outcome of one write attempt in `write_timestamp_to_db` (app1.py lines
110-138): success, an `(SQLAlchemyError, DBAPIError)` exception with its
message, or any other exception. -/
inductive WriteResult where
  | ok
  | sqlErr (msg : PyStr.Str)
  | otherErr (msg : PyStr.Str)
deriving DecidableEq

/-- The Prometheus series touched by app1.py.  Counters with labels are one
field per label combination; histograms are modelled by their observation
count (latency values are wall-clock real time, outside the embedding). -/
structure Metrics where
  /-- Gauge `flask_db_engine_status`. -/
  engineStatus : Nat
  /-- Counter `flask_db_connect_attempts_total` with labels status=success, is_timeout=false. -/
  connectSuccess : Nat
  /-- Same counter with labels status=failure, is_timeout=true. -/
  connectFailTimeout : Nat
  /-- Same counter with labels status=failure, is_timeout=false. -/
  connectFailPlain : Nat
  /-- Observation count of histogram `flask_db_connect_latency_ms`. -/
  connectHistObs : Nat
  /-- Counter `flask_db_write_attempts_total` with labels status=success, is_timeout=false. -/
  writeSuccess : Nat
  /-- Same counter with labels status=failure, is_timeout=true. -/
  writeFailTimeout : Nat
  /-- Same counter with labels status=failure, is_timeout=false. -/
  writeFailPlain : Nat
  /-- Observation count of histogram `flask_db_write_latency_ms`. -/
  writeHistObs : Nat
deriving DecidableEq

/-- Aggregate failure count of the write-attempts counter: the sum of the
status=failure series over both is_timeout label values. -/
def Metrics.writeFailTotal (m : Metrics) : Nat := m.writeFailTimeout + m.writeFailPlain

/-- Aggregate failure count of the connect-attempts counter. -/
def Metrics.connectFailTotal (m : Metrics) : Nat := m.connectFailTimeout + m.connectFailPlain

/-- Process state of app1.py: the global `engine` variable (by handle id),
the metric registry, and bookkeeping of externally visible actions (sleep
calls, oracle consultations, which engine each write attempt used, loop
passes). -/
structure St where
  engine : Option Nat
  metrics : Metrics
  sleeps : List Nat
  connectAttempts : Nat
  writeAttempts : Nat
  usedEngines : List Nat
  iters : Nat
deriving DecidableEq

/-- The timeout heuristic of app1.py lines 74 and 123:
`"timed out" in str(e).lower() or "connection refused" in str(e).lower()`. -/
def is_timeout_error (msg : PyStr.Str) : Bool :=
  PyStr.containsSub "timed out".data (PyStr.lower msg) ||
    PyStr.containsSub "connection refused".data (PyStr.lower msg)

/-- Metric effect of the success path of one connect attempt (app1.py lines
66-69): gauge to 1, success counter increment, histogram observation. -/
def okConnectMetrics (m : Metrics) : Metrics :=
  { m with engineStatus := 1,
           connectSuccess := m.connectSuccess + 1,
           connectHistObs := m.connectHistObs + 1 }

/-- Metric effect of the `(SQLAlchemyError, DBAPIError)` handler of one
connect attempt (app1.py lines 72-79): failure counter increment with the
is_timeout label from `is_timeout_error`, and a histogram observation. -/
def sqlFailMetrics (msg : PyStr.Str) (m : Metrics) : Metrics :=
  { m with
    connectFailTimeout := m.connectFailTimeout + (if is_timeout_error msg then 1 else 0),
    connectFailPlain := m.connectFailPlain + (if is_timeout_error msg then 0 else 1),
    connectHistObs := m.connectHistObs + 1 }

/-- Metric effect of the generic `except Exception` handler of one connect
attempt (app1.py lines 91-95): plain failure increment and a histogram
observation. -/
def otherFailMetrics (m : Metrics) : Metrics :=
  { m with connectFailPlain := m.connectFailPlain + 1,
           connectHistObs := m.connectHistObs + 1 }

/-- State carried into the next round of the retry loop: updated metrics,
one more attempt consumed, and the 5-second `time.sleep(5)` recorded. -/
def retryState (m : Metrics) (s : St) : St :=
  { s with metrics := m, connectAttempts := s.connectAttempts + 1,
           sleeps := s.sleeps ++ [5] }

/-- The `while retries > 0` loop of `init_db_engine` (app1.py lines 56-98).
The fuel argument is the current value of `retries`; the oracle gives the
result of the i-th connection attempt of the process, where i is the running
`connectAttempts` index.  On success the engine is stored, the success
metrics applied and the loop breaks.  On an SQLAlchemy/DBAPI error the
failure is recorded; if retries remain the loop sleeps 5s and goes round
again, otherwise it sets `engine = None`, the gauge to 0 and breaks.  On any
other exception the failure is recorded and the loop always sleeps 5s before
re-testing the loop condition. -/
def initDbEngineAux (oracle : Nat → ConnectResult) : Nat → St → St
  | 0, s => s
  | r + 1, s =>
    match oracle s.connectAttempts with
    | .ok eid =>
        { s with engine := some eid, connectAttempts := s.connectAttempts + 1,
                 metrics := okConnectMetrics s.metrics }
    | .sqlErr msg =>
        if 0 < r then
          initDbEngineAux oracle r (retryState (sqlFailMetrics msg s.metrics) s)
        else
          { s with engine := none,
                   metrics := { sqlFailMetrics msg s.metrics with engineStatus := 0 },
                   connectAttempts := s.connectAttempts + 1 }
    | .otherErr _ =>
        initDbEngineAux oracle r (retryState (otherFailMetrics s.metrics) s)

/-- The `DB_ENGINE_STATUS.set(0)` at the head of `init_db_engine` (app1.py
line 55). -/
def gaugeCleared (s : St) : St :=
  { s with metrics := { s.metrics with engineStatus := 0 } }

/-- Entry point `init_db_engine` (app1.py lines 51-98): `retries = 5`,
status gauge set to 0, then the retry loop. -/
def init_db_engine (oracle : Nat → ConnectResult) (s : St) : St :=
  initDbEngineAux oracle 5 (gaugeCleared s)

/-- Metric updates of one completed write attempt (app1.py lines 110-140):
success path increments the success series; the SQLAlchemy/DBAPI handler
increments the failure series with the is_timeout label from
`is_timeout_error`; the generic handler increments the plain failure series.
Every path records exactly one latency histogram observation. -/
def writeAttemptMetrics (res : WriteResult) (m : Metrics) : Metrics :=
  match res with
  | .ok =>
      { m with writeSuccess := m.writeSuccess + 1, writeHistObs := m.writeHistObs + 1 }
  | .sqlErr msg =>
      { m with
        writeFailTimeout := m.writeFailTimeout + (if is_timeout_error msg then 1 else 0),
        writeFailPlain := m.writeFailPlain + (if is_timeout_error msg then 0 else 1),
        writeHistObs := m.writeHistObs + 1 }
  | .otherErr _ =>
      { m with writeFailPlain := m.writeFailPlain + 1, writeHistObs := m.writeHistObs + 1 }

/-- One pass of the `while True` body of `write_timestamp_to_db` (app1.py
lines 102-140).  If the engine is `None` the pass re-initializes; if it is
still `None` it sleeps 5s and continues without an attempt.  Otherwise one
write attempt runs against the current engine (the write oracle maps pass
index and engine id to an outcome); its metrics are recorded, a failing
attempt triggers `init_db_engine` inline, and the `finally` block sleeps 2s
after every attempt regardless of outcome. -/
def write_timestamp_iteration (co : Nat → ConnectResult) (wo : Nat → Nat → WriteResult)
    (s : St) : St :=
  let s1 := match s.engine with
            | none => init_db_engine co s
            | some _ => s
  match s1.engine with
  | none => { s1 with sleeps := s1.sleeps ++ [5], iters := s1.iters + 1 }
  | some eid =>
      let res := wo s1.iters eid
      let s2 := { s1 with metrics := writeAttemptMetrics res s1.metrics,
                          writeAttempts := s1.writeAttempts + 1,
                          usedEngines := s1.usedEngines ++ [eid] }
      let s3 := match res with
                | .ok => s2
                | .sqlErr _ => init_db_engine co s2
                | .otherErr _ => init_db_engine co s2
      { s3 with sleeps := s3.sleeps ++ [2], iters := s3.iters + 1 }

/-- The `while True` loop of `write_timestamp_to_db`, run for `n` passes. -/
def write_timestamp_to_db (co : Nat → ConnectResult) (wo : Nat → Nat → WriteResult) :
    Nat → St → St
  | 0, s => s
  | n + 1, s => write_timestamp_to_db co wo n (write_timestamp_iteration co wo s)

/-- Body of the `/health` endpoint (app1.py lines 146-156).  The probe
oracle gives the result of `SELECT 1` on the given engine (`none` = probe
succeeded, `some msg` = `SQLAlchemyError` with message `msg`).  Returns the
(unchanged) process state, the HTTP status code, and the response body. -/
inductive HealthBody where
  | healthy
  | unhealthyProbe (msg : PyStr.Str)
  | unhealthyNoEngine
deriving DecidableEq

/-- The `/health` handler itself: with a live engine it probes and reports
healthy/unhealthy, with no engine it reports unhealthy; it never reassigns
the global `engine`. -/
def health_check (probe : Nat → Option PyStr.Str) (s : St) : St × Nat × HealthBody :=
  match s.engine with
  | some eid =>
      match probe eid with
      | none => (s, 200, .healthy)
      | some e => (s, 500, .unhealthyProbe e)
  | none => (s, 500, .unhealthyNoEngine)

end Initial

namespace MultiDB

/-- Outcome of the real write path of `write_timestamp_to_db`
(multidb-without-tracing/app.py lines 170-185): success, a
`Psycopg2OperationalError` with message, or any other exception. -/
inductive PgWriteResult where
  | ok
  | opErr (msg : PyStr.Str)
  | otherErr (msg : PyStr.Str)
deriving DecidableEq

/-- Per-target write metrics of the multi-database variant: the three
counters `multidb_write_success_total`, `multidb_write_failure_total`,
`multidb_write_timeout_total`, and the observation count of the
`multidb_write_latency_seconds` histogram. -/
structure WMetrics where
  success : Nat
  failure : Nat
  timeout : Nat
  histObs : Nat
deriving DecidableEq

/-- Metric updates of one completed write attempt (app.py lines 161-188).
The whole attempt runs inside `DB_WRITE_LATENCY.labels(...).time()`, so
every path records exactly one histogram observation.  The
`Psycopg2OperationalError` handler increments both the timeout and the
failure counter; the generic handler increments the failure counter only;
the success path increments the success counter only. -/
def recordWrite (res : PgWriteResult) (m : WMetrics) : WMetrics :=
  match res with
  | .ok => { m with success := m.success + 1, histObs := m.histObs + 1 }
  | .opErr _ =>
      { m with timeout := m.timeout + 1, failure := m.failure + 1,
               histObs := m.histObs + 1 }
  | .otherErr _ =>
      { m with failure := m.failure + 1, histObs := m.histObs + 1 }

/-- Python check `os.getenv('SIMULATE_DB_FAILURE', 'false').lower() == 'true'`
(app.py line 165); the argument is the raw environment value, `none` when
unset. -/
def simulate_db_failure (env : Option PyStr.Str) : Bool :=
  PyStr.lower (env.getD "false".data) = "true".data

/-- One call of `write_timestamp_to_db` for a target (app.py lines 154-188).
When the simulation flag is on, a `Psycopg2OperationalError` is raised
before any connection is made, unconditionally on every attempt; otherwise
the real write outcome `real` is handled. -/
def write_timestamp_to_db (simEnv : Option PyStr.Str) (name : PyStr.Str)
    (real : PgWriteResult) (m : WMetrics) : WMetrics :=
  if simulate_db_failure simEnv then
    recordWrite
      (.opErr ("Simulated database connection error or timeout for ".data ++ name)) m
  else recordWrite real m

/-- Process state of the multi-database scheduler: per-target metrics (keyed
by logical name), sleep calls, and completed loop passes. -/
structure MSt where
  metrics : PyStr.Str → WMetrics
  sleeps : List Nat
  iters : Nat

/-- The body of `for db_config in DB_CONFIGS` inside `periodic_db_writer`
(app.py lines 197-201): one call of `write_timestamp_to_db` for the target,
guarded by `except Exception` (the call's own handlers already catch every
exception; one that still escapes, e.g. from the `finally` close, is caught
and logged here), updating only that target's metric series. -/
def targetPass (simEnv : Option PyStr.Str) (o : Nat → PyStr.Str → PgWriteResult) (i : Nat)
    (acc : MSt) (nm : PyStr.Str) : MSt :=
  { acc with metrics := fun k =>
      if k = nm then write_timestamp_to_db simEnv nm (o i nm) (acc.metrics nm)
      else acc.metrics k }

/-- One pass of the `while True` body of `periodic_db_writer` (app.py lines
196-202): one `targetPass` per configured target (the attempt oracle is
indexed by the pass number and the target name), then one
`time.sleep(DB_WRITE_INTERVAL_SECONDS)` regardless of outcomes. -/
def periodicIteration (simEnv : Option PyStr.Str) (o : Nat → PyStr.Str → PgWriteResult)
    (configs : List PyStr.Str) (interval : Nat) (s : MSt) : MSt :=
  let s1 := configs.foldl (targetPass simEnv o s.iters) s
  { s1 with sleeps := s1.sleeps ++ [interval], iters := s1.iters + 1 }

/-- The `while True` loop of `periodic_db_writer`, run for `n` passes. -/
def periodic_db_writer (simEnv : Option PyStr.Str) (o : Nat → PyStr.Str → PgWriteResult)
    (configs : List PyStr.Str) (interval : Nat) : Nat → MSt → MSt
  | 0, s => s
  | n + 1, s =>
      periodic_db_writer simEnv o configs interval n
        (periodicIteration simEnv o configs interval s)

/-- One database configuration entry as built by app.py lines 43-53. -/
structure DbConfig where
  name : PyStr.Str
  host : PyStr.Str
  port : PyStr.Str
  user : PyStr.Str
  password : PyStr.Str
  dbname : PyStr.Str
deriving DecidableEq

/-- Python truthiness of an optional environment value: `None` and the empty
string are falsy. -/
def truthy : Option PyStr.Str → Bool
  | none => false
  | some s => !s.isEmpty

/-- Environment lookup for one logical name (app.py lines 39-64): the
uppercased name prefixes the variable names; host and password are
mandatory (unset or empty aborts startup with exit code 1); port, user and
dbname fall back to the defaults 5432, k8sadmin and timestamp. -/
def mkConfig (env : PyStr.Str → Option PyStr.Str) (nm : PyStr.Str) : Except Nat DbConfig :=
  let p := PyStr.upper nm
  let host := env (p ++ "_DB_HOST".data)
  let password := env (p ++ "_DB_PASSWORD".data)
  if truthy host && truthy password then
    .ok { name := nm
          host := host.getD []
          port := (env (p ++ "_DB_PORT".data)).getD "5432".data
          user := (env (p ++ "_DB_USER".data)).getD "k8sadmin".data
          password := password.getD []
          dbname := (env (p ++ "_DB_DBNAME".data)).getD "timestamp".data }
  else .error 1

/-- The `for db_logical_name in database_names` loop (app.py lines 39-65):
validates each name in order, exiting with code 1 at the first invalid one,
and collects the configurations in order. -/
def loadConfigs (env : PyStr.Str → Option PyStr.Str) : List PyStr.Str → Except Nat (List DbConfig)
  | [] => .ok []
  | nm :: rest =>
      match mkConfig env nm with
      | .error e => .error e
      | .ok c =>
          match loadConfigs env rest with
          | .error e => .error e
          | .ok cs => .ok (c :: cs)

/-- The logical names parsed from a `DATABASE_NAMES` value (app.py line 34):
split on commas, strip whitespace, keep the non-empty entries. -/
def parsedNames (s : PyStr.Str) : List PyStr.Str :=
  ((PyStr.splitComma s).map PyStr.strip).filter (fun nm => !nm.isEmpty)

/-- Module-level configuration load of the multi-database variant (app.py
lines 28-68), running before any route is served.  Unset or empty
`DATABASE_NAMES` exits with code 1; a name list that strips to nothing exits
with code 1; otherwise every listed name is validated by `mkConfig`. -/
def startupConfig (env : PyStr.Str → Option PyStr.Str) : Except Nat (List DbConfig) :=
  match env "DATABASE_NAMES".data with
  | none => .error 1
  | some s =>
      if s.isEmpty then .error 1
      else
        let names := parsedNames s
        if names.isEmpty then .error 1
        else loadConfigs env names

/-- Exposed per-target metric series with registration state: `none` means
the series does not exist yet in the registry (a dashboard sees no data),
`some v` means it is exposed with value `v`.  `histCount` is the exposed
observation count of the latency histogram child. -/
structure TargetSeries where
  success : Option Nat
  failure : Option Nat
  timeout : Option Nat
  histCount : Option Nat
deriving DecidableEq

/-- A series that was never touched. -/
def TargetSeries.empty : TargetSeries := ⟨none, none, none, none⟩

/-- The value a series contributes to queries, with an absent series
reading as 0 once registered via `Option.getD`. -/
def seriesVal (v : Option Nat) : Nat := v.getD 0

/-- `Counter.labels(...).inc(k)`: creates the child series if absent and
adds `k` to it. -/
def incSeries (v : Option Nat) (k : Nat) : Option Nat := some (v.getD 0 + k)

/-- The full metric registry, keyed by target name. -/
structure Registry where
  series : PyStr.Str → TargetSeries

/-- Registry before any metric is touched. -/
def initRegistry : Registry := ⟨fun _ => TargetSeries.empty⟩

/-- Registry-level events of the multi-database variant, in source order:
`registerZero` is the startup block `...labels(name).inc(0)` for the three
counters of one target (app.py lines 229-231); `attemptStart` is the entry
of `DB_WRITE_LATENCY.labels(...).time()` which creates the histogram child
(app.py line 161); `attemptEnd` is the completion of that attempt, applying
the counter increments of lines 176-184 and the histogram observation
recorded when the timer context exits; `scrape` is `generate_latest`, a
read-only exposition. -/
inductive Event where
  | registerZero (nm : PyStr.Str)
  | attemptStart (nm : PyStr.Str)
  | attemptEnd (nm : PyStr.Str) (res : PgWriteResult)
  | scrape

/-- Effect of one event on the registry. -/
def applyEvent : Event → Registry → Registry
  | .registerZero nm, r =>
      ⟨fun k => if k = nm then
          { success := incSeries (r.series nm).success 0
            failure := incSeries (r.series nm).failure 0
            timeout := incSeries (r.series nm).timeout 0
            histCount := (r.series nm).histCount }
        else r.series k⟩
  | .attemptStart nm, r =>
      ⟨fun k => if k = nm then
          { r.series nm with histCount := some ((r.series nm).histCount.getD 0) }
        else r.series k⟩
  | .attemptEnd nm res, r =>
      ⟨fun k => if k = nm then
          (match res with
           | .ok => { r.series nm with
                      success := incSeries (r.series nm).success 1,
                      histCount := incSeries (r.series nm).histCount 1 }
           | .opErr _ => { r.series nm with
                           timeout := incSeries (r.series nm).timeout 1,
                           failure := incSeries (r.series nm).failure 1,
                           histCount := incSeries (r.series nm).histCount 1 }
           | .otherErr _ => { r.series nm with
                              failure := incSeries (r.series nm).failure 1,
                              histCount := incSeries (r.series nm).histCount 1 })
        else r.series k⟩
  | .scrape, r => r

/-- The `__main__` startup block (app.py lines 224-233): for each configured
target, `create_table` (which touches no metric series) followed by the
three zero increments; the writer thread starts only after this loop. -/
def runStartup (names : List PyStr.Str) (r : Registry) : Registry :=
  names.foldl (fun r nm => applyEvent (.registerZero nm) r) r

/-- A sequence of registry events applied in order. -/
def runEvents (es : List Event) (r : Registry) : Registry :=
  es.foldl (fun r e => applyEvent e r) r

end MultiDB

namespace Tracing

/-- Outcome of the real write path in the tracing variant
(with-tracing/app.py lines 166-171); every exception is caught by the
single `except (sqlite3.OperationalError, Exception)` clause, so only the
message matters. -/
inductive SqWriteResult where
  | ok
  | err (msg : PyStr.Str)
deriving DecidableEq

/-- Counters and histogram observation count of the tracing variant. -/
structure TMetrics where
  success : Nat
  failure : Nat
  timeout : Nat
  histObs : Nat
deriving DecidableEq

/-- The timeout heuristic of with-tracing/app.py line 181:
`"timeout" in str(e).lower() or "operationalerror" in str(e).lower()`. -/
def is_timeout_like (msg : PyStr.Str) : Bool :=
  PyStr.containsSub "timeout".data (PyStr.lower msg) ||
    PyStr.containsSub "operationalerror".data (PyStr.lower msg)

/-- Metric updates of one completed write attempt (app.py lines 158-186):
one histogram observation on every path; failures increment the failure
counter and, when the message matches the timeout heuristic, also the
timeout counter. -/
def recordWrite (res : SqWriteResult) (m : TMetrics) : TMetrics :=
  match res with
  | .ok => { m with success := m.success + 1, histObs := m.histObs + 1 }
  | .err msg =>
      { m with failure := m.failure + 1,
               timeout := m.timeout + (if is_timeout_like msg then 1 else 0),
               histObs := m.histObs + 1 }

/-- The simulation gate of with-tracing/app.py lines 160-161:
`SIMULATE_DB_FAILURE` must be true AND the current wall-clock second must be
divisible by 10. -/
def simulate_cond (env : Option PyStr.Str) (second : Nat) : Bool :=
  (PyStr.lower (env.getD "false".data) = "true".data) && second % 10 == 0

/-- One call of `write_timestamp_to_db` in the tracing variant (app.py
lines 140-186): when the simulation gate fires, an
`sqlite3.OperationalError("Simulated database connection error or timeout")`
is raised and handled; otherwise the real outcome is handled. -/
def write_timestamp_to_db (env : Option PyStr.Str) (second : Nat)
    (real : SqWriteResult) (m : TMetrics) : TMetrics :=
  if simulate_cond env second then
    recordWrite (.err "Simulated database connection error or timeout".data) m
  else recordWrite real m

/-- What `sqlite3.connect` opens for a given database string: the special
name `:memory:` opens a fresh in-memory database, anything else a file of
that name. -/
inductive SqliteTarget where
  | memoryDb
  | fileDb (name : PyStr.Str)
deriving DecidableEq

/-- `sqlite3.connect(s)`. -/
def sqliteConnect (s : PyStr.Str) : SqliteTarget :=
  if s = ":memory:".data then .memoryDb else .fileDb s

/-- `get_db_connection` of with-tracing/app.py lines 92-120: when `DB_NAME`
is `:memory:` or does not end in `.db`, it calls `sqlite3.connect(DB_NAME)`;
otherwise the external-database branch is an unimplemented stub that prints
a warning and calls `sqlite3.connect(':memory:')`. -/
def get_db_connection (dbName : PyStr.Str) : SqliteTarget :=
  if dbName = ":memory:".data ∨ PyStr.hasEnding ".db".data dbName = false then
    sqliteConnect dbName
  else
    sqliteConnect ":memory:".data

end Tracing

namespace SingleDB

/-- Module-level validation of the single-target variant
(without-tracing/app.py lines 29-42): all five connection variables must be
truthy (set and non-empty) or the process exits with code 1 before any
route is served. -/
structure SingleConfig where
  dbName : PyStr.Str
  dbUser : PyStr.Str
  dbPassword : PyStr.Str
  dbHost : PyStr.Str
  dbPort : PyStr.Str
deriving DecidableEq

/-- The startup check `if not all([DB_NAME, DB_USER, DB_PASSWORD, DB_HOST,
DB_PORT]): exit(1)`. -/
def startupConfig (env : PyStr.Str → Option PyStr.Str) : Except Nat SingleConfig :=
  let dbName := env "DB_NAME".data
  let dbUser := env "DB_USER".data
  let dbPassword := env "DB_PASSWORD".data
  let dbHost := env "DB_HOST".data
  let dbPort := env "DB_PORT".data
  if MultiDB.truthy dbName && MultiDB.truthy dbUser && MultiDB.truthy dbPassword &&
      MultiDB.truthy dbHost && MultiDB.truthy dbPort then
    .ok { dbName := dbName.getD [], dbUser := dbUser.getD [],
          dbPassword := dbPassword.getD [], dbHost := dbHost.getD [],
          dbPort := dbPort.getD [] }
  else .error 1

end SingleDB

namespace Initial

/-- Whether a connection attempt result is the success case. -/
def ConnectResult.isOk : ConnectResult → Bool
  | .ok _ => true
  | .sqlErr _ => false
  | .otherErr _ => false

/-- All-zero metric registry, the state of the process before any attempt. -/
def zeroMetrics : Metrics := ⟨0, 0, 0, 0, 0, 0, 0, 0, 0⟩

/-- Process state at the initial connection establishment: no engine yet,
no attempt made, metric registry `m`. -/
def startState (m : Metrics) : St :=
  { engine := none, metrics := m, sleeps := [], connectAttempts := 0,
    writeAttempts := 0, usedEngines := [], iters := 0 }

/-- The write attempt (if any) that one pass of the writer loop performs:
`none` when the engine is absent and re-initialization failed (the pass
sleeps and continues without an attempt), otherwise the outcome the write
oracle yields for the engine the pass uses. -/
def attemptResult (co : Nat → ConnectResult) (wo : Nat → Nat → WriteResult) (s : St) :
    Option WriteResult :=
  let s1 := match s.engine with
            | none => init_db_engine co s
            | some _ => s
  match s1.engine with
  | none => none
  | some eid => some (wo s1.iters eid)

end Initial

namespace MultiDB

/-- All-zero write metrics for one target. -/
def zeroW : WMetrics := ⟨0, 0, 0, 0⟩

end MultiDB

namespace Tracing

/-- All-zero metrics of the tracing variant. -/
def zeroT : TMetrics := ⟨0, 0, 0, 0⟩

end Tracing

namespace Fixtures

/-- Environment with two logical targets whose mandatory variables are set
and whose optional variables are left unset. -/
def envTwoTargets : PyStr.Str → Option PyStr.Str := fun k =>
  if k = "DATABASE_NAMES".data then some "db1, db2".data
  else if k = "DB1_DB_HOST".data then some "h1".data
  else if k = "DB1_DB_PASSWORD".data then some "p1".data
  else if k = "DB2_DB_HOST".data then some "h2".data
  else if k = "DB2_DB_PASSWORD".data then some "p2".data
  else none

/-- Environment listing one target but omitting its mandatory host and
password variables. -/
def envMissingHost : PyStr.Str → Option PyStr.Str := fun k =>
  if k = "DATABASE_NAMES".data then some "db1".data else none

/-- Environment with nothing set at all. -/
def envEmpty : PyStr.Str → Option PyStr.Str := fun _ => none

/-- Connect oracle whose attempts all fail with an SQLAlchemy error. -/
def coAllSqlFail : Nat → Initial.ConnectResult := fun _ => .sqlErr "timed out".data

/-- Connect oracle failing twice, then producing engine 42. -/
def coThirdOk : Nat → Initial.ConnectResult := fun i =>
  if i < 2 then .sqlErr "connection refused".data else .ok 42

/-- Connect oracle whose attempts all raise a non-SQLAlchemy exception. -/
def coAllOtherFail : Nat → Initial.ConnectResult := fun _ => .otherErr "unexpected".data

/-- Write oracle whose attempts all fail with a refused connection. -/
def woRefused : Nat → Nat → Initial.WriteResult := fun _ _ => .sqlErr "connection refused".data

/-- Write oracle whose attempts all succeed. -/
def woOk : Nat → Nat → Initial.WriteResult := fun _ _ => .ok

end Fixtures

lemma Initial_retryState_att (m : Initial.Metrics) (s : Initial.St) :
    (Initial.retryState m s).connectAttempts = s.connectAttempts + 1 := rfl

lemma Initial_retryState_metrics (m : Initial.Metrics) (s : Initial.St) :
    (Initial.retryState m s).metrics = m := rfl

lemma Initial_retryState_sleeps (m : Initial.Metrics) (s : Initial.St) :
    (Initial.retryState m s).sleeps = s.sleeps ++ [5] := rfl

lemma Initial_retryState_engine (m : Initial.Metrics) (s : Initial.St) :
    (Initial.retryState m s).engine = s.engine := rfl

lemma Initial_sqlFail_hist (msg : PyStr.Str) (m : Initial.Metrics) :
    (Initial.sqlFailMetrics msg m).connectHistObs = m.connectHistObs + 1 := rfl

lemma Initial_otherFail_hist (m : Initial.Metrics) :
    (Initial.otherFailMetrics m).connectHistObs = m.connectHistObs + 1 := rfl

lemma Initial_sqlFail_status (msg : PyStr.Str) (m : Initial.Metrics) :
    (Initial.sqlFailMetrics msg m).engineStatus = m.engineStatus := rfl

lemma Initial_otherFail_status (m : Initial.Metrics) :
    (Initial.otherFailMetrics m).engineStatus = m.engineStatus := rfl

lemma Initial_initAux_counts (oracle : Nat → Initial.ConnectResult) :
    ∀ (f : Nat) (s : Initial.St),
      s.connectAttempts ≤ (Initial.initDbEngineAux oracle f s).connectAttempts ∧
      (Initial.initDbEngineAux oracle f s).connectAttempts ≤ s.connectAttempts + f ∧
      (Initial.initDbEngineAux oracle f s).metrics.connectHistObs + s.connectAttempts =
        s.metrics.connectHistObs + (Initial.initDbEngineAux oracle f s).connectAttempts ∧
      (∃ l, (Initial.initDbEngineAux oracle f s).sleeps = s.sleeps ++ l ∧ ∀ d ∈ l, d = 5) := by
  intro f
  induction f with
  | zero =>
      intro s
      refine ⟨le_refl _, by simp [Initial.initDbEngineAux], by simp [Initial.initDbEngineAux],
        [], by simp [Initial.initDbEngineAux], by simp⟩
  | succ r ih =>
      intro s
      cases h : oracle s.connectAttempts with
      | ok eid =>
          refine ⟨?_, ?_, ?_, [], ?_, ?_⟩ <;>
            simp [Initial.initDbEngineAux, h, Initial.okConnectMetrics] <;> omega
      | sqlErr msg =>
          by_cases hr : 0 < r
          · obtain ⟨g1, g2, g3, l, hl, h5⟩ :=
              ih (Initial.retryState (Initial.sqlFailMetrics msg s.metrics) s)
            rw [Initial_retryState_att] at g1 g2 g3
            rw [Initial_retryState_metrics, Initial_sqlFail_hist] at g3
            rw [Initial_retryState_sleeps] at hl
            refine ⟨?_, ?_, ?_, 5 :: l, ?_, ?_⟩ <;>
              try simp only [Initial.initDbEngineAux, h, if_pos hr]
            · omega
            · omega
            · omega
            · rw [hl]; simp
            · intro d hd
              rcases List.mem_cons.mp hd with h1 | h2
              · exact h1
              · exact h5 d h2
          · have hr0 : r = 0 := by omega
            subst hr0
            refine ⟨?_, ?_, ?_, [], ?_, ?_⟩ <;>
              simp [Initial.initDbEngineAux, h, Initial.sqlFailMetrics] <;> omega
      | otherErr msg =>
          obtain ⟨g1, g2, g3, l, hl, h5⟩ :=
            ih (Initial.retryState (Initial.otherFailMetrics s.metrics) s)
          rw [Initial_retryState_att] at g1 g2 g3
          rw [Initial_retryState_metrics, Initial_otherFail_hist] at g3
          rw [Initial_retryState_sleeps] at hl
          refine ⟨?_, ?_, ?_, 5 :: l, ?_, ?_⟩ <;>
            try simp only [Initial.initDbEngineAux, h]
          · omega
          · omega
          · omega
          · rw [hl]; simp
          · intro d hd
            rcases List.mem_cons.mp hd with h1 | h2
            · exact h1
            · exact h5 d h2

lemma Initial_initAux_first_ok (oracle : Nat → Initial.ConnectResult) :
    ∀ (f : Nat) (s : Initial.St) (j : Nat) (eid : Nat), j < f →
      (∀ i, i < j → (oracle (s.connectAttempts + i)).isOk = false) →
      oracle (s.connectAttempts + j) = .ok eid →
      (Initial.initDbEngineAux oracle f s).engine = some eid ∧
      (Initial.initDbEngineAux oracle f s).metrics.engineStatus = 1 ∧
      (Initial.initDbEngineAux oracle f s).connectAttempts = s.connectAttempts + j + 1 := by
  intro f
  induction f with
  | zero => intro s j eid hj; omega
  | succ r ih =>
      intro s j eid hj hprev hok
      cases j with
      | zero =>
          rw [Nat.add_zero] at hok
          refine ⟨?_, ?_, ?_⟩ <;> simp [Initial.initDbEngineAux, hok, Initial.okConnectMetrics]
      | succ k =>
          have h0 := hprev 0 (Nat.succ_pos k)
          rw [Nat.add_zero] at h0
          cases h : oracle s.connectAttempts with
          | ok e => rw [h] at h0; exact absurd h0 (by simp [Initial.ConnectResult.isOk])
          | sqlErr msg =>
              have hr : 0 < r := by omega
              have hrec := ih (Initial.retryState (Initial.sqlFailMetrics msg s.metrics) s) k eid
                (by omega)
                (by
                  intro i hi
                  rw [Initial_retryState_att, Nat.add_assoc, Nat.add_comm 1 i]
                  exact hprev (i + 1) (by omega))
                (by
                  rw [Initial_retryState_att, Nat.add_assoc, Nat.add_comm 1 k]
                  exact hok)
              rw [Initial_retryState_att] at hrec
              refine ⟨?_, ?_, ?_⟩ <;>
                simp only [Initial.initDbEngineAux, h, if_pos hr]
              · exact hrec.1
              · exact hrec.2.1
              · omega
          | otherErr msg =>
              have hrec := ih (Initial.retryState (Initial.otherFailMetrics s.metrics) s) k eid
                (by omega)
                (by
                  intro i hi
                  rw [Initial_retryState_att, Nat.add_assoc, Nat.add_comm 1 i]
                  exact hprev (i + 1) (by omega))
                (by
                  rw [Initial_retryState_att, Nat.add_assoc, Nat.add_comm 1 k]
                  exact hok)
              rw [Initial_retryState_att] at hrec
              refine ⟨?_, ?_, ?_⟩ <;>
                simp only [Initial.initDbEngineAux, h]
              · exact hrec.1
              · exact hrec.2.1
              · omega

lemma Initial_initAux_allfail (oracle : Nat → Initial.ConnectResult) :
    ∀ (f : Nat) (s : Initial.St), 0 < f →
      (∀ i, i < f → (oracle (s.connectAttempts + i)).isOk = false) →
      (Initial.initDbEngineAux oracle f s).connectAttempts = s.connectAttempts + f ∧
      ((Initial.initDbEngineAux oracle f s).engine = s.engine ∨
        (Initial.initDbEngineAux oracle f s).engine = none) ∧
      ((Initial.initDbEngineAux oracle f s).metrics.engineStatus = s.metrics.engineStatus ∨
        (Initial.initDbEngineAux oracle f s).metrics.engineStatus = 0) := by
  intro f
  induction f with
  | zero => intro s hf; omega
  | succ r ih =>
      intro s _ hall
      have h0 := hall 0 (Nat.succ_pos r)
      rw [Nat.add_zero] at h0
      cases h : oracle s.connectAttempts with
      | ok e => rw [h] at h0; exact absurd h0 (by simp [Initial.ConnectResult.isOk])
      | sqlErr msg =>
          by_cases hr : 0 < r
          · have hrec := ih (Initial.retryState (Initial.sqlFailMetrics msg s.metrics) s) hr
              (by
                intro i hi
                rw [Initial_retryState_att, Nat.add_assoc, Nat.add_comm 1 i]
                exact hall (i + 1) (by omega))
            rw [Initial_retryState_att, Initial_retryState_engine] at hrec
            rw [Initial_retryState_metrics, Initial_sqlFail_status] at hrec
            refine ⟨?_, ?_, ?_⟩ <;> try simp only [Initial.initDbEngineAux, h, if_pos hr]
            · omega
            · exact hrec.2.1
            · exact hrec.2.2
          · have hr0 : r = 0 := by omega
            subst hr0
            refine ⟨?_, ?_, ?_⟩ <;>
              simp [Initial.initDbEngineAux, h, Initial.sqlFailMetrics]
      | otherErr msg =>
          by_cases hr : 0 < r
          · have hrec := ih (Initial.retryState (Initial.otherFailMetrics s.metrics) s) hr
              (by
                intro i hi
                rw [Initial_retryState_att, Nat.add_assoc, Nat.add_comm 1 i]
                exact hall (i + 1) (by omega))
            rw [Initial_retryState_att, Initial_retryState_engine] at hrec
            rw [Initial_retryState_metrics, Initial_otherFail_status] at hrec
            refine ⟨?_, ?_, ?_⟩ <;> try simp only [Initial.initDbEngineAux, h]
            · omega
            · exact hrec.2.1
            · exact hrec.2.2
          · have hr0 : r = 0 := by omega
            subst hr0
            refine ⟨?_, ?_, ?_⟩ <;>
              simp [Initial.initDbEngineAux, h, Initial.retryState, Initial.otherFailMetrics]

/-- Claim C2: initial connection establishment makes at most 5 connect
attempts, records one latency observation per attempt whether it succeeds
or fails, sleeps exactly 5 seconds between attempts, stores the live engine
and sets the readiness gauge to 1 on the first success, and when all 5
attempts fail leaves the engine as None with the gauge at 0 while returning
normally (the model function is total, mirroring that every exception is
caught inside the loop). -/
theorem C2_initial_connect_retry (oracle : Nat → Initial.ConnectResult) (m : Initial.Metrics) :
    (Initial.init_db_engine oracle (Initial.startState m)).connectAttempts ≤ 5 ∧
    (Initial.init_db_engine oracle (Initial.startState m)).metrics.connectHistObs =
      m.connectHistObs + (Initial.init_db_engine oracle (Initial.startState m)).connectAttempts ∧
    (∀ d ∈ (Initial.init_db_engine oracle (Initial.startState m)).sleeps, d = 5) ∧
    (∀ j eid, j < 5 → (∀ i, i < j → (oracle i).isOk = false) → oracle j = .ok eid →
        (Initial.init_db_engine oracle (Initial.startState m)).engine = some eid ∧
        (Initial.init_db_engine oracle (Initial.startState m)).metrics.engineStatus = 1 ∧
        (Initial.init_db_engine oracle (Initial.startState m)).connectAttempts = j + 1) ∧
    ((∀ i, i < 5 → (oracle i).isOk = false) →
        (Initial.init_db_engine oracle (Initial.startState m)).connectAttempts = 5 ∧
        (Initial.init_db_engine oracle (Initial.startState m)).engine = none ∧
        (Initial.init_db_engine oracle (Initial.startState m)).metrics.engineStatus = 0) := by
  have hx : (Initial.gaugeCleared (Initial.startState m)).connectAttempts = 0 := rfl
  have hh : (Initial.gaugeCleared (Initial.startState m)).metrics.connectHistObs =
      m.connectHistObs := rfl
  have hsl : (Initial.gaugeCleared (Initial.startState m)).sleeps = ([] : List Nat) := rfl
  have he : (Initial.gaugeCleared (Initial.startState m)).engine = none := rfl
  have hst : (Initial.gaugeCleared (Initial.startState m)).metrics.engineStatus = 0 := rfl
  obtain ⟨g1, g2, g3, l, hl, h5⟩ :=
    Initial_initAux_counts oracle 5 (Initial.gaugeCleared (Initial.startState m))
  refine ⟨?_, ?_, ?_, ?_, ?_⟩
  · simp only [Initial.init_db_engine]
    omega
  · simp only [Initial.init_db_engine]
    omega
  · intro d hd
    simp only [Initial.init_db_engine] at hd
    rw [hl, hsl] at hd
    simp at hd
    exact h5 d hd
  · intro j eid hj hprev hok
    have hrec := Initial_initAux_first_ok oracle 5
      (Initial.gaugeCleared (Initial.startState m)) j eid hj
      (by intro i hi; simp only [hx, Nat.zero_add]; exact hprev i hi)
      (by simp only [hx, Nat.zero_add]; exact hok)
    simp only [Initial.init_db_engine]
    exact ⟨hrec.1, hrec.2.1, by rw [hrec.2.2, hx]; omega⟩
  · intro hall
    have hrec := Initial_initAux_allfail oracle 5
      (Initial.gaugeCleared (Initial.startState m)) (by omega)
      (by intro i hi; simp only [hx, Nat.zero_add]; exact hall i hi)
    simp only [Initial.init_db_engine]
    refine ⟨by omega, ?_, ?_⟩
    · rcases hrec.2.1 with h | h
      · rw [h, he]
      · exact h
    · rcases hrec.2.2 with h | h
      · rw [h, hst]
      · exact h

/-- Claim C2 witness: the retry loop evaluated on an oracle succeeding at
the third attempt (engine 42 stored, gauge 1, three attempts) and on an
oracle whose five attempts all fail (no engine, gauge 0). -/
theorem C2_initial_connect_retry_witness :
    ((Initial.init_db_engine Fixtures.coThirdOk (Initial.startState Initial.zeroMetrics)).engine =
        some 42 ∧
     (Initial.init_db_engine Fixtures.coThirdOk
        (Initial.startState Initial.zeroMetrics)).metrics.engineStatus = 1 ∧
     (Initial.init_db_engine Fixtures.coThirdOk
        (Initial.startState Initial.zeroMetrics)).connectAttempts = 2 + 1) ∧
    ((Initial.init_db_engine Fixtures.coAllSqlFail
        (Initial.startState Initial.zeroMetrics)).connectAttempts = 5 ∧
     (Initial.init_db_engine Fixtures.coAllSqlFail
        (Initial.startState Initial.zeroMetrics)).engine = none ∧
     (Initial.init_db_engine Fixtures.coAllSqlFail
        (Initial.startState Initial.zeroMetrics)).metrics.engineStatus = 0) :=
  ⟨(C2_initial_connect_retry Fixtures.coThirdOk Initial.zeroMetrics).2.2.2.1 2 42
      (by decide) (by decide) (by decide),
   (C2_initial_connect_retry Fixtures.coAllSqlFail Initial.zeroMetrics).2.2.2.2 (by decide)⟩

lemma Initial_initAux_frame (oracle : Nat → Initial.ConnectResult) :
    ∀ (f : Nat) (s : Initial.St),
      (Initial.initDbEngineAux oracle f s).iters = s.iters ∧
      (Initial.initDbEngineAux oracle f s).writeAttempts = s.writeAttempts ∧
      (Initial.initDbEngineAux oracle f s).usedEngines = s.usedEngines ∧
      (Initial.initDbEngineAux oracle f s).metrics.writeSuccess = s.metrics.writeSuccess ∧
      (Initial.initDbEngineAux oracle f s).metrics.writeFailTimeout = s.metrics.writeFailTimeout ∧
      (Initial.initDbEngineAux oracle f s).metrics.writeFailPlain = s.metrics.writeFailPlain ∧
      (Initial.initDbEngineAux oracle f s).metrics.writeHistObs = s.metrics.writeHistObs := by
  intro f
  induction f with
  | zero => intro s; exact ⟨rfl, rfl, rfl, rfl, rfl, rfl, rfl⟩
  | succ r ih =>
      intro s
      cases h : oracle s.connectAttempts with
      | ok eid => simp [Initial.initDbEngineAux, h, Initial.okConnectMetrics]
      | sqlErr msg =>
          by_cases hr : 0 < r
          · have hrec := ih (Initial.retryState (Initial.sqlFailMetrics msg s.metrics) s)
            simp only [Initial.initDbEngineAux, h, if_pos hr]
            simpa only [Initial.retryState, Initial.sqlFailMetrics] using hrec
          · have hr0 : r = 0 := by omega
            subst hr0
            simp [Initial.initDbEngineAux, h, Initial.sqlFailMetrics]
      | otherErr msg =>
          have hrec := ih (Initial.retryState (Initial.otherFailMetrics s.metrics) s)
          simp only [Initial.initDbEngineAux, h]
          simpa only [Initial.retryState, Initial.otherFailMetrics] using hrec

lemma Initial_init_frame (oracle : Nat → Initial.ConnectResult) (s : Initial.St) :
    (Initial.init_db_engine oracle s).iters = s.iters ∧
    (Initial.init_db_engine oracle s).writeAttempts = s.writeAttempts ∧
    (Initial.init_db_engine oracle s).usedEngines = s.usedEngines ∧
    (Initial.init_db_engine oracle s).metrics.writeSuccess = s.metrics.writeSuccess ∧
    (Initial.init_db_engine oracle s).metrics.writeFailTimeout = s.metrics.writeFailTimeout ∧
    (Initial.init_db_engine oracle s).metrics.writeFailPlain = s.metrics.writeFailPlain ∧
    (Initial.init_db_engine oracle s).metrics.writeHistObs = s.metrics.writeHistObs := by
  have h := Initial_initAux_frame oracle 5 (Initial.gaugeCleared s)
  simpa only [Initial.init_db_engine, Initial.gaugeCleared] using h

lemma Initial_init_iters (oracle : Nat → Initial.ConnectResult) (s : Initial.St) :
    (Initial.init_db_engine oracle s).iters = s.iters := (Initial_init_frame oracle s).1

lemma Initial_init_writeAtt (oracle : Nat → Initial.ConnectResult) (s : Initial.St) :
    (Initial.init_db_engine oracle s).writeAttempts = s.writeAttempts :=
  (Initial_init_frame oracle s).2.1

lemma Initial_init_used (oracle : Nat → Initial.ConnectResult) (s : Initial.St) :
    (Initial.init_db_engine oracle s).usedEngines = s.usedEngines :=
  (Initial_init_frame oracle s).2.2.1

lemma Initial_init_wSuccess (oracle : Nat → Initial.ConnectResult) (s : Initial.St) :
    (Initial.init_db_engine oracle s).metrics.writeSuccess = s.metrics.writeSuccess :=
  (Initial_init_frame oracle s).2.2.2.1

lemma Initial_init_wFailT (oracle : Nat → Initial.ConnectResult) (s : Initial.St) :
    (Initial.init_db_engine oracle s).metrics.writeFailTimeout = s.metrics.writeFailTimeout :=
  (Initial_init_frame oracle s).2.2.2.2.1

lemma Initial_init_wFailP (oracle : Nat → Initial.ConnectResult) (s : Initial.St) :
    (Initial.init_db_engine oracle s).metrics.writeFailPlain = s.metrics.writeFailPlain :=
  (Initial_init_frame oracle s).2.2.2.2.2.1

lemma Initial_init_wHist (oracle : Nat → Initial.ConnectResult) (s : Initial.St) :
    (Initial.init_db_engine oracle s).metrics.writeHistObs = s.metrics.writeHistObs :=
  (Initial_init_frame oracle s).2.2.2.2.2.2

lemma Initial_iteration_iters (co : Nat → Initial.ConnectResult)
    (wo : Nat → Nat → Initial.WriteResult) (s : Initial.St) :
    (Initial.write_timestamp_iteration co wo s).iters = s.iters + 1 := by
  unfold Initial.write_timestamp_iteration
  cases hs : s.engine with
  | none =>
      cases h1 : (Initial.init_db_engine co s).engine with
      | none => simp [hs, h1, Initial_init_iters]
      | some eid =>
          simp only [hs, h1, Initial_init_iters]
          cases hw : wo s.iters eid <;> simp [hw, Initial_init_iters]
  | some eid =>
      cases hw : wo s.iters eid <;> simp [hs, hw, Initial_init_iters]

lemma Initial_iteration_attempt (co : Nat → Initial.ConnectResult)
    (wo : Nat → Nat → Initial.WriteResult) (s : Initial.St) (res : Initial.WriteResult)
    (h : Initial.attemptResult co wo s = some res) :
    (Initial.write_timestamp_iteration co wo s).writeAttempts = s.writeAttempts + 1 ∧
    (Initial.write_timestamp_iteration co wo s).metrics.writeHistObs =
      s.metrics.writeHistObs + 1 ∧
    (¬res = .ok →
      (Initial.write_timestamp_iteration co wo s).metrics.writeFailTotal =
        s.metrics.writeFailTotal + 1) ∧
    (∃ l, (Initial.write_timestamp_iteration co wo s).sleeps = l ++ [2]) := by
  unfold Initial.write_timestamp_iteration
  unfold Initial.attemptResult at h
  cases hs : s.engine with
  | some eid =>
      simp only [hs, Option.some_inj] at h
      subst h
      cases hw : wo s.iters eid <;>
        simp only [hs, hw] <;>
        refine ⟨?_, ?_, ?_, ?_⟩ <;>
        simp [Initial.writeAttemptMetrics, Initial.Metrics.writeFailTotal, hw,
          Initial_init_writeAtt, Initial_init_wHist, Initial_init_wFailT, Initial_init_wFailP] <;>
        first
          | (split_ifs <;> omega)
          | omega
          | exact ⟨_, rfl⟩
  | none =>
      simp only [hs] at h ⊢
      cases h1 : (Initial.init_db_engine co s).engine with
      | none => simp [h1] at h
      | some eid =>
          simp only [h1, Option.some_inj] at h
          subst h
          cases hw : wo (Initial.init_db_engine co s).iters eid <;>
            simp only [h1, hw] <;>
            refine ⟨?_, ?_, ?_, ?_⟩ <;>
            simp [Initial.writeAttemptMetrics, Initial.Metrics.writeFailTotal, hw,
              Initial_init_writeAtt, Initial_init_wHist, Initial_init_wFailT,
              Initial_init_wFailP] <;>
            first
              | (split_ifs <;> omega)
              | omega
              | exact ⟨_, rfl⟩

lemma Initial_loop_iters (co : Nat → Initial.ConnectResult)
    (wo : Nat → Nat → Initial.WriteResult) :
    ∀ (n : Nat) (s : Initial.St),
      (Initial.write_timestamp_to_db co wo n s).iters = s.iters + n := by
  intro n
  induction n with
  | zero => intro s; rfl
  | succ k ih =>
      intro s
      rw [Initial.write_timestamp_to_db, ih, Initial_iteration_iters]
      omega

lemma MultiDB_fold_shape (simEnv : Option PyStr.Str)
    (o : Nat → PyStr.Str → MultiDB.PgWriteResult) (i : Nat) :
    ∀ (configs : List PyStr.Str) (acc : MultiDB.MSt),
      (configs.foldl (MultiDB.targetPass simEnv o i) acc).sleeps = acc.sleeps ∧
      (configs.foldl (MultiDB.targetPass simEnv o i) acc).iters = acc.iters := by
  intro configs
  induction configs with
  | nil => intro acc; exact ⟨rfl, rfl⟩
  | cons c cs ih =>
      intro acc
      have h := ih (MultiDB.targetPass simEnv o i acc c)
      simpa [List.foldl_cons, MultiDB.targetPass] using h

lemma MultiDB_periodicIteration_iters (simEnv : Option PyStr.Str)
    (o : Nat → PyStr.Str → MultiDB.PgWriteResult) (configs : List PyStr.Str)
    (interval : Nat) (s : MultiDB.MSt) :
    (MultiDB.periodicIteration simEnv o configs interval s).iters = s.iters + 1 := by
  simp [MultiDB.periodicIteration, (MultiDB_fold_shape simEnv o s.iters configs s).2]

lemma MultiDB_periodicIteration_sleeps (simEnv : Option PyStr.Str)
    (o : Nat → PyStr.Str → MultiDB.PgWriteResult) (configs : List PyStr.Str)
    (interval : Nat) (s : MultiDB.MSt) :
    (MultiDB.periodicIteration simEnv o configs interval s).sleeps = s.sleeps ++ [interval] := by
  simp [MultiDB.periodicIteration, (MultiDB_fold_shape simEnv o s.iters configs s).1]

lemma MultiDB_writer_iters (simEnv : Option PyStr.Str)
    (o : Nat → PyStr.Str → MultiDB.PgWriteResult) (configs : List PyStr.Str)
    (interval : Nat) :
    ∀ (n : Nat) (s : MultiDB.MSt),
      (MultiDB.periodic_db_writer simEnv o configs interval n s).iters = s.iters + n := by
  intro n
  induction n with
  | zero => intro s; rfl
  | succ k ih =>
      intro s
      rw [MultiDB.periodic_db_writer, ih, MultiDB_periodicIteration_iters]
      omega

/-- Claim C4: the scheduler loops never terminate because of an attempt's
error — n passes always complete n iterations for every oracle; in the
initial variant every pass that performs a write attempt records it
(counter and histogram) and ends with the fixed 2-second sleep regardless
of outcome, with a failing outcome recorded as exactly one failure; in the
multi-database variant every pass ends with exactly one sleep of the
configured interval. -/
theorem C4_scheduler_loop :
    (∀ co wo n (s : Initial.St),
        (Initial.write_timestamp_to_db co wo n s).iters = s.iters + n) ∧
    (∀ co wo (s : Initial.St) res, Initial.attemptResult co wo s = some res →
        (Initial.write_timestamp_iteration co wo s).writeAttempts = s.writeAttempts + 1 ∧
        (Initial.write_timestamp_iteration co wo s).metrics.writeHistObs =
          s.metrics.writeHistObs + 1 ∧
        (¬res = .ok →
          (Initial.write_timestamp_iteration co wo s).metrics.writeFailTotal =
            s.metrics.writeFailTotal + 1) ∧
        (∃ l, (Initial.write_timestamp_iteration co wo s).sleeps = l ++ [2])) ∧
    (∀ simEnv o configs interval n (s : MultiDB.MSt),
        (MultiDB.periodic_db_writer simEnv o configs interval n s).iters = s.iters + n) ∧
    (∀ simEnv o configs interval (s : MultiDB.MSt),
        (MultiDB.periodicIteration simEnv o configs interval s).sleeps =
          s.sleeps ++ [interval]) := by
  refine ⟨?_, ?_, ?_, ?_⟩
  · intro co wo n s
    exact Initial_loop_iters co wo n s
  · intro co wo s res h
    exact Initial_iteration_attempt co wo s res h
  · intro simEnv o configs interval n s
    exact MultiDB_writer_iters simEnv o configs interval n s
  · intro simEnv o configs interval s
    exact MultiDB_periodicIteration_sleeps simEnv o configs interval s

/-- Claim C4 witness: one pass over a live engine whose write fails with a
refused connection records one attempt, one observation, one failure, and
ends with the 2-second sleep. -/
theorem C4_scheduler_loop_witness :
    (Initial.write_timestamp_iteration Fixtures.coAllSqlFail Fixtures.woRefused
        { Initial.startState Initial.zeroMetrics with engine := some 5 }).writeAttempts = 1 ∧
    (Initial.write_timestamp_iteration Fixtures.coAllSqlFail Fixtures.woRefused
        { Initial.startState Initial.zeroMetrics with engine := some 5 }).metrics.writeHistObs = 1 ∧
    (Initial.write_timestamp_iteration Fixtures.coAllSqlFail Fixtures.woRefused
        { Initial.startState Initial.zeroMetrics with engine := some 5 }).metrics.writeFailTotal = 1 ∧
    (∃ l, (Initial.write_timestamp_iteration Fixtures.coAllSqlFail Fixtures.woRefused
        { Initial.startState Initial.zeroMetrics with engine := some 5 }).sleeps = l ++ [2]) := by
  have h := C4_scheduler_loop.2.1 Fixtures.coAllSqlFail Fixtures.woRefused
    { Initial.startState Initial.zeroMetrics with engine := some 5 }
    (.sqlErr "connection refused".data) (by decide)
  exact ⟨h.1, h.2.1, h.2.2.1 (by decide), h.2.2.2⟩

lemma MultiDB_mkConfig_invalid (env : PyStr.Str → Option PyStr.Str) (nm : PyStr.Str)
    (h : MultiDB.truthy (env (PyStr.upper nm ++ "_DB_HOST".data)) = false ∨
         MultiDB.truthy (env (PyStr.upper nm ++ "_DB_PASSWORD".data)) = false) :
    MultiDB.mkConfig env nm = .error 1 := by
  rcases h with h | h <;> simp [MultiDB.mkConfig, h]

lemma MultiDB_mkConfig_valid (env : PyStr.Str → Option PyStr.Str) (nm : PyStr.Str)
    (h1 : MultiDB.truthy (env (PyStr.upper nm ++ "_DB_HOST".data)) = true)
    (h2 : MultiDB.truthy (env (PyStr.upper nm ++ "_DB_PASSWORD".data)) = true) :
    MultiDB.mkConfig env nm =
      .ok { name := nm
            host := (env (PyStr.upper nm ++ "_DB_HOST".data)).getD []
            port := (env (PyStr.upper nm ++ "_DB_PORT".data)).getD "5432".data
            user := (env (PyStr.upper nm ++ "_DB_USER".data)).getD "k8sadmin".data
            password := (env (PyStr.upper nm ++ "_DB_PASSWORD".data)).getD []
            dbname := (env (PyStr.upper nm ++ "_DB_DBNAME".data)).getD "timestamp".data } := by
  simp [MultiDB.mkConfig, h1, h2]

lemma MultiDB_mkConfig_error_one (env : PyStr.Str → Option PyStr.Str) (nm : PyStr.Str)
    (e : Nat) (h : MultiDB.mkConfig env nm = .error e) : e = 1 := by
  by_cases hc : (MultiDB.truthy (env (PyStr.upper nm ++ "_DB_HOST".data)) &&
      MultiDB.truthy (env (PyStr.upper nm ++ "_DB_PASSWORD".data))) = true
  · rw [MultiDB.mkConfig] at h
    simp only [hc, if_true] at h
    cases h
  · rw [MultiDB.mkConfig] at h
    simp only [hc, if_false, Bool.false_eq_true] at h
    cases h
    rfl

lemma MultiDB_loadConfigs_error (env : PyStr.Str → Option PyStr.Str) :
    ∀ (names : List PyStr.Str) (nm : PyStr.Str), nm ∈ names →
      MultiDB.mkConfig env nm = .error 1 →
      MultiDB.loadConfigs env names = .error 1 := by
  intro names
  induction names with
  | nil => intro nm h; cases h
  | cons x rest ih =>
      intro nm hmem herr
      cases hx : MultiDB.mkConfig env x with
      | error e =>
          have he : e = 1 := MultiDB_mkConfig_error_one env x e hx
          subst he
          simp [MultiDB.loadConfigs, hx]
      | ok c =>
          rcases List.mem_cons.mp hmem with h1 | h2
          · subst h1
            rw [hx] at herr
            cases herr
          · have hrest := ih nm h2 herr
            simp [MultiDB.loadConfigs, hx, hrest]

lemma MultiDB_loadConfigs_ok (env : PyStr.Str → Option PyStr.Str) :
    ∀ (names : List PyStr.Str),
      (∀ nm ∈ names, ∃ c, MultiDB.mkConfig env nm = .ok c) →
      ∃ cfgs, MultiDB.loadConfigs env names = .ok cfgs ∧
        ∀ nm ∈ names, ∃ c ∈ cfgs, MultiDB.mkConfig env nm = .ok c := by
  intro names
  induction names with
  | nil => intro h; exact ⟨[], rfl, by simp⟩
  | cons x rest ih =>
      intro h
      obtain ⟨c, hc⟩ := h x (List.mem_cons_self x rest)
      obtain ⟨cfgs, hcf, hmem⟩ := ih (fun nm hm => h nm (List.mem_cons_of_mem x hm))
      refine ⟨c :: cfgs, ?_, ?_⟩
      · simp [MultiDB.loadConfigs, hc, hcf]
      · intro nm hm
        rcases List.mem_cons.mp hm with h1 | h2
        · subst h1
          exact ⟨c, List.mem_cons_self c cfgs, hc⟩
        · obtain ⟨c', hc', hok⟩ := hmem nm h2
          exact ⟨c', List.mem_cons_of_mem c hc', hok⟩

lemma MultiDB_parsedNames_nil : MultiDB.parsedNames [] = [] := rfl

/-- Claim C7: startup configuration validation — an unset or empty
DATABASE_NAMES exits with code 1, a listed name whose host or password
variable is unset or empty exits with code 1, while names with host and
password present load successfully with the port, user and dbname defaults
5432, k8sadmin and timestamp when their variables are unset; in
single-target mode a missing DB_NAME, DB_USER, DB_PASSWORD, DB_HOST or
DB_PORT exits with code 1.  The checks run at module level, before any
route is served. -/
theorem C7_config_validation :
    (∀ env, env "DATABASE_NAMES".data = none → MultiDB.startupConfig env = .error 1) ∧
    (∀ env, env "DATABASE_NAMES".data = some [] → MultiDB.startupConfig env = .error 1) ∧
    (∀ env s nm, env "DATABASE_NAMES".data = some s → nm ∈ MultiDB.parsedNames s →
        (MultiDB.truthy (env (PyStr.upper nm ++ "_DB_HOST".data)) = false ∨
          MultiDB.truthy (env (PyStr.upper nm ++ "_DB_PASSWORD".data)) = false) →
        MultiDB.startupConfig env = .error 1) ∧
    (∀ env s, env "DATABASE_NAMES".data = some s → ¬MultiDB.parsedNames s = [] →
        (∀ nm ∈ MultiDB.parsedNames s,
            MultiDB.truthy (env (PyStr.upper nm ++ "_DB_HOST".data)) = true ∧
            MultiDB.truthy (env (PyStr.upper nm ++ "_DB_PASSWORD".data)) = true) →
        ∃ cfgs, MultiDB.startupConfig env = .ok cfgs ∧
          ∀ nm ∈ MultiDB.parsedNames s, ∃ c ∈ cfgs, c.name = nm ∧
            (env (PyStr.upper nm ++ "_DB_PORT".data) = none → c.port = "5432".data) ∧
            (env (PyStr.upper nm ++ "_DB_USER".data) = none → c.user = "k8sadmin".data) ∧
            (env (PyStr.upper nm ++ "_DB_DBNAME".data) = none →
              c.dbname = "timestamp".data)) ∧
    (∀ env, (env "DB_NAME".data = none ∨ env "DB_USER".data = none ∨
             env "DB_PASSWORD".data = none ∨ env "DB_HOST".data = none ∨
             env "DB_PORT".data = none) →
        SingleDB.startupConfig env = .error 1) := by
  refine ⟨?_, ?_, ?_, ?_, ?_⟩
  · intro env h
    simp [MultiDB.startupConfig, h]
  · intro env h
    simp [MultiDB.startupConfig, h]
  · intro env s nm hs hmem hbad
    have hload := MultiDB_loadConfigs_error env (MultiDB.parsedNames s) nm hmem
      (MultiDB_mkConfig_invalid env nm hbad)
    cases s with
    | nil => rw [MultiDB_parsedNames_nil] at hmem; cases hmem
    | cons a as =>
        have hne : ¬MultiDB.parsedNames (a :: as) = [] := by
          intro h0; rw [h0] at hmem; cases hmem
        simp [MultiDB.startupConfig, hs, List.isEmpty_iff, hne, hload]
  · intro env s hs hne hvalid
    obtain ⟨cfgs, hcfgs, hmem⟩ := MultiDB_loadConfigs_ok env (MultiDB.parsedNames s)
      (fun nm hm => ⟨_, MultiDB_mkConfig_valid env nm (hvalid nm hm).1 (hvalid nm hm).2⟩)
    refine ⟨cfgs, ?_, ?_⟩
    · cases s with
      | nil => exact absurd MultiDB_parsedNames_nil hne
      | cons a as => simp [MultiDB.startupConfig, hs, List.isEmpty_iff, hne, hcfgs]
    · intro nm hm
      obtain ⟨c, hcmem, hok⟩ := hmem nm hm
      rw [MultiDB_mkConfig_valid env nm (hvalid nm hm).1 (hvalid nm hm).2] at hok
      injection hok with hok
      subst hok
      refine ⟨_, hcmem, rfl, ?_, ?_, ?_⟩ <;> intro hunset <;> simp [hunset]
  · intro env h
    rcases h with h | h | h | h | h <;> simp [SingleDB.startupConfig, h, MultiDB.truthy]

/-- Claim C7 witness: the validation conclusions evaluated on three
concrete environments. -/
theorem C7_config_validation_witness :
    MultiDB.startupConfig Fixtures.envEmpty = .error 1 ∧
    MultiDB.startupConfig Fixtures.envMissingHost = .error 1 ∧
    (∃ cfgs, MultiDB.startupConfig Fixtures.envTwoTargets = .ok cfgs ∧
      ∀ nm ∈ MultiDB.parsedNames "db1, db2".data, ∃ c ∈ cfgs, c.name = nm ∧
        (Fixtures.envTwoTargets (PyStr.upper nm ++ "_DB_PORT".data) = none →
          c.port = "5432".data) ∧
        (Fixtures.envTwoTargets (PyStr.upper nm ++ "_DB_USER".data) = none →
          c.user = "k8sadmin".data) ∧
        (Fixtures.envTwoTargets (PyStr.upper nm ++ "_DB_DBNAME".data) = none →
          c.dbname = "timestamp".data)) ∧
    SingleDB.startupConfig Fixtures.envEmpty = .error 1 :=
  ⟨C7_config_validation.1 Fixtures.envEmpty (by decide),
   C7_config_validation.2.2.1 Fixtures.envMissingHost "db1".data "db1".data
     (by decide) (by decide) (by decide),
   C7_config_validation.2.2.2.1 Fixtures.envTwoTargets "db1, db2".data
     (by decide) (by decide) (by decide),
   C7_config_validation.2.2.2.2 Fixtures.envEmpty (Or.inl (by decide))⟩

lemma MultiDB_applyEvent_mono (e : MultiDB.Event) (r : MultiDB.Registry) (nm : PyStr.Str) :
    MultiDB.seriesVal ((r.series nm).success) ≤
      MultiDB.seriesVal (((MultiDB.applyEvent e r).series nm).success) ∧
    MultiDB.seriesVal ((r.series nm).failure) ≤
      MultiDB.seriesVal (((MultiDB.applyEvent e r).series nm).failure) ∧
    MultiDB.seriesVal ((r.series nm).timeout) ≤
      MultiDB.seriesVal (((MultiDB.applyEvent e r).series nm).timeout) ∧
    MultiDB.seriesVal ((r.series nm).histCount) ≤
      MultiDB.seriesVal (((MultiDB.applyEvent e r).series nm).histCount) := by
  cases e with
  | registerZero x =>
      by_cases h : nm = x <;>
        simp [MultiDB.applyEvent, MultiDB.incSeries, MultiDB.seriesVal, h]
  | attemptStart x =>
      by_cases h : nm = x <;>
        simp [MultiDB.applyEvent, MultiDB.seriesVal, h]
  | attemptEnd x res =>
      cases res <;> by_cases h : nm = x <;>
        simp [MultiDB.applyEvent, MultiDB.incSeries, MultiDB.seriesVal, h] <;>
        try omega
  | scrape => simp [MultiDB.applyEvent]

lemma MultiDB_runEvents_mono (es : List MultiDB.Event) :
    ∀ (r : MultiDB.Registry) (nm : PyStr.Str),
      MultiDB.seriesVal ((r.series nm).success) ≤
        MultiDB.seriesVal (((MultiDB.runEvents es r).series nm).success) ∧
      MultiDB.seriesVal ((r.series nm).failure) ≤
        MultiDB.seriesVal (((MultiDB.runEvents es r).series nm).failure) ∧
      MultiDB.seriesVal ((r.series nm).timeout) ≤
        MultiDB.seriesVal (((MultiDB.runEvents es r).series nm).timeout) ∧
      MultiDB.seriesVal ((r.series nm).histCount) ≤
        MultiDB.seriesVal (((MultiDB.runEvents es r).series nm).histCount) := by
  induction es with
  | nil => intro r nm; exact ⟨le_refl _, le_refl _, le_refl _, le_refl _⟩
  | cons e rest ih =>
      intro r nm
      have h1 := MultiDB_applyEvent_mono e r nm
      have h2 := ih (MultiDB.applyEvent e r) nm
      exact ⟨le_trans h1.1 h2.1, le_trans h1.2.1 h2.2.1,
        le_trans h1.2.2.1 h2.2.2.1, le_trans h1.2.2.2 h2.2.2.2⟩

lemma MultiDB_runStartup_keep (names : List PyStr.Str) :
    ∀ (r : MultiDB.Registry) (nm : PyStr.Str),
      ((r.series nm).success = some 0 →
        ((MultiDB.runStartup names r).series nm).success = some 0) ∧
      ((r.series nm).failure = some 0 →
        ((MultiDB.runStartup names r).series nm).failure = some 0) ∧
      ((r.series nm).timeout = some 0 →
        ((MultiDB.runStartup names r).series nm).timeout = some 0) := by
  induction names with
  | nil => intro r nm; exact ⟨fun h => h, fun h => h, fun h => h⟩
  | cons x rest ih =>
      intro r nm
      have h2 := ih (MultiDB.applyEvent (.registerZero x) r) nm
      refine ⟨fun h => h2.1 ?_, fun h => h2.2.1 ?_, fun h => h2.2.2 ?_⟩
      · by_cases hx : nm = x
        · subst hx; simp [MultiDB.applyEvent, MultiDB.incSeries, h]
        · simp [MultiDB.applyEvent, hx, h]
      · by_cases hx : nm = x
        · subst hx; simp [MultiDB.applyEvent, MultiDB.incSeries, h]
        · simp [MultiDB.applyEvent, hx, h]
      · by_cases hx : nm = x
        · subst hx; simp [MultiDB.applyEvent, MultiDB.incSeries, h]
        · simp [MultiDB.applyEvent, hx, h]

lemma MultiDB_runStartup_member (names : List PyStr.Str) :
    ∀ (r : MultiDB.Registry) (nm : PyStr.Str),
      ((r.series nm).success = none ∨ (r.series nm).success = some 0) →
      ((r.series nm).failure = none ∨ (r.series nm).failure = some 0) →
      ((r.series nm).timeout = none ∨ (r.series nm).timeout = some 0) →
      nm ∈ names →
      ((MultiDB.runStartup names r).series nm).success = some 0 ∧
      ((MultiDB.runStartup names r).series nm).failure = some 0 ∧
      ((MultiDB.runStartup names r).series nm).timeout = some 0 := by
  induction names with
  | nil => intro r nm _ _ _ hmem; cases hmem
  | cons x rest ih =>
      intro r nm hs hf ht hmem
      have hkeep := MultiDB_runStartup_keep rest (MultiDB.applyEvent (.registerZero x) r) nm
      by_cases hx : nm = x
      · subst hx
        have hs0 : ((MultiDB.applyEvent (.registerZero nm) r).series nm).success = some 0 := by
          rcases hs with h | h <;> simp [MultiDB.applyEvent, MultiDB.incSeries, h]
        have hf0 : ((MultiDB.applyEvent (.registerZero nm) r).series nm).failure = some 0 := by
          rcases hf with h | h <;> simp [MultiDB.applyEvent, MultiDB.incSeries, h]
        have ht0 : ((MultiDB.applyEvent (.registerZero nm) r).series nm).timeout = some 0 := by
          rcases ht with h | h <;> simp [MultiDB.applyEvent, MultiDB.incSeries, h]
        exact ⟨hkeep.1 hs0, hkeep.2.1 hf0, hkeep.2.2 ht0⟩
      · have hmem' : nm ∈ rest := by
          rcases List.mem_cons.mp hmem with h | h
          · exact absurd h hx
          · exact h
        have hs' : ((MultiDB.applyEvent (.registerZero x) r).series nm).success = none ∨
            ((MultiDB.applyEvent (.registerZero x) r).series nm).success = some 0 := by
          simpa [MultiDB.applyEvent, hx] using hs
        have hf' : ((MultiDB.applyEvent (.registerZero x) r).series nm).failure = none ∨
            ((MultiDB.applyEvent (.registerZero x) r).series nm).failure = some 0 := by
          simpa [MultiDB.applyEvent, hx] using hf
        have ht' : ((MultiDB.applyEvent (.registerZero x) r).series nm).timeout = none ∨
            ((MultiDB.applyEvent (.registerZero x) r).series nm).timeout = some 0 := by
          simpa [MultiDB.applyEvent, hx] using ht
        exact ih (MultiDB.applyEvent (.registerZero x) r) nm hs' hf' ht' hmem'

lemma MultiDB_runStartup_hist (names : List PyStr.Str) :
    ∀ (r : MultiDB.Registry) (nm : PyStr.Str),
      ((MultiDB.runStartup names r).series nm).histCount = (r.series nm).histCount := by
  induction names with
  | nil => intro r nm; rfl
  | cons x rest ih =>
      intro r nm
      have h2 := ih (MultiDB.applyEvent (.registerZero x) r) nm
      rw [show MultiDB.runStartup (x :: rest) r =
          MultiDB.runStartup rest (MultiDB.applyEvent (.registerZero x) r) from rfl, h2]
      by_cases hx : nm = x
      · subst hx; simp [MultiDB.applyEvent]
      · simp [MultiDB.applyEvent, hx]

/-- Claim C8: after the startup block every configured target's success,
failure and timeout counter series are registered at value 0, the latency
histogram child is registered at 0 observations when the first write
attempt starts (hence before it completes), and no registry event ever
decreases any counter or histogram value. -/
theorem C8_metric_registration :
    (∀ names nm, nm ∈ names →
        ((MultiDB.runStartup names MultiDB.initRegistry).series nm).success = some 0 ∧
        ((MultiDB.runStartup names MultiDB.initRegistry).series nm).failure = some 0 ∧
        ((MultiDB.runStartup names MultiDB.initRegistry).series nm).timeout = some 0) ∧
    (∀ names nm,
        ((MultiDB.applyEvent (.attemptStart nm)
            (MultiDB.runStartup names MultiDB.initRegistry)).series nm).histCount = some 0) ∧
    (∀ es r nm,
        MultiDB.seriesVal ((r.series nm).success) ≤
          MultiDB.seriesVal (((MultiDB.runEvents es r).series nm).success) ∧
        MultiDB.seriesVal ((r.series nm).failure) ≤
          MultiDB.seriesVal (((MultiDB.runEvents es r).series nm).failure) ∧
        MultiDB.seriesVal ((r.series nm).timeout) ≤
          MultiDB.seriesVal (((MultiDB.runEvents es r).series nm).timeout) ∧
        MultiDB.seriesVal ((r.series nm).histCount) ≤
          MultiDB.seriesVal (((MultiDB.runEvents es r).series nm).histCount)) := by
  refine ⟨?_, ?_, ?_⟩
  · intro names nm hmem
    exact MultiDB_runStartup_member names MultiDB.initRegistry nm (Or.inl rfl) (Or.inl rfl)
      (Or.inl rfl) hmem
  · intro names nm
    have hh := MultiDB_runStartup_hist names MultiDB.initRegistry nm
    have hstep : ((MultiDB.applyEvent (.attemptStart nm)
        (MultiDB.runStartup names MultiDB.initRegistry)).series nm).histCount =
          some (((MultiDB.runStartup names MultiDB.initRegistry).series nm).histCount.getD 0) := by
      simp [MultiDB.applyEvent]
    rw [hstep, hh]
    rfl
  · intro es r nm
    exact MultiDB_runEvents_mono es r nm

/-- Claim C8 witness: the startup conclusions evaluated for target beta
out of two configured targets. -/
theorem C8_metric_registration_witness :
    ((MultiDB.runStartup ["alpha".data, "beta".data] MultiDB.initRegistry).series
        "beta".data).success = some 0 ∧
    ((MultiDB.runStartup ["alpha".data, "beta".data] MultiDB.initRegistry).series
        "beta".data).failure = some 0 ∧
    ((MultiDB.runStartup ["alpha".data, "beta".data] MultiDB.initRegistry).series
        "beta".data).timeout = some 0 :=
  C8_metric_registration.1 ["alpha".data, "beta".data] "beta".data (by decide)

/-- Claim C1: for every write attempt completing with an error, each
variant's Outcome Classifier maps an error matching its timeout heuristic
(message containing "timed out" or "connection refused" in the initial
variant; a driver OperationalError in the multi-database variant; a message
containing "timeout" or "operationalerror" in the tracing variant) to
TimeoutLike, incrementing both the aggregate failure count and the
timeout-specific count; every other error increments the failure count
only; an attempt with no error increments only the success counter. -/
theorem C1_outcome_classifier :
    (∀ msg m, Initial.is_timeout_error msg = true →
        (Initial.writeAttemptMetrics (.sqlErr msg) m).writeFailTotal = m.writeFailTotal + 1 ∧
        (Initial.writeAttemptMetrics (.sqlErr msg) m).writeFailTimeout = m.writeFailTimeout + 1 ∧
        (Initial.writeAttemptMetrics (.sqlErr msg) m).writeSuccess = m.writeSuccess) ∧
    (∀ msg m, Initial.is_timeout_error msg = false →
        (Initial.writeAttemptMetrics (.sqlErr msg) m).writeFailTotal = m.writeFailTotal + 1 ∧
        (Initial.writeAttemptMetrics (.sqlErr msg) m).writeFailTimeout = m.writeFailTimeout ∧
        (Initial.writeAttemptMetrics (.sqlErr msg) m).writeSuccess = m.writeSuccess) ∧
    (∀ msg m,
        (Initial.writeAttemptMetrics (.otherErr msg) m).writeFailTotal = m.writeFailTotal + 1 ∧
        (Initial.writeAttemptMetrics (.otherErr msg) m).writeFailTimeout = m.writeFailTimeout ∧
        (Initial.writeAttemptMetrics (.otherErr msg) m).writeSuccess = m.writeSuccess) ∧
    (∀ m, (Initial.writeAttemptMetrics .ok m).writeSuccess = m.writeSuccess + 1 ∧
        (Initial.writeAttemptMetrics .ok m).writeFailTotal = m.writeFailTotal ∧
        (Initial.writeAttemptMetrics .ok m).writeFailTimeout = m.writeFailTimeout) ∧
    (∀ msg m,
        (MultiDB.recordWrite (.opErr msg) m).failure = m.failure + 1 ∧
        (MultiDB.recordWrite (.opErr msg) m).timeout = m.timeout + 1 ∧
        (MultiDB.recordWrite (.opErr msg) m).success = m.success) ∧
    (∀ msg m,
        (MultiDB.recordWrite (.otherErr msg) m).failure = m.failure + 1 ∧
        (MultiDB.recordWrite (.otherErr msg) m).timeout = m.timeout ∧
        (MultiDB.recordWrite (.otherErr msg) m).success = m.success) ∧
    (∀ m, (MultiDB.recordWrite .ok m).success = m.success + 1 ∧
        (MultiDB.recordWrite .ok m).failure = m.failure ∧
        (MultiDB.recordWrite .ok m).timeout = m.timeout) ∧
    (∀ msg m, Tracing.is_timeout_like msg = true →
        (Tracing.recordWrite (.err msg) m).failure = m.failure + 1 ∧
        (Tracing.recordWrite (.err msg) m).timeout = m.timeout + 1 ∧
        (Tracing.recordWrite (.err msg) m).success = m.success) ∧
    (∀ msg m, Tracing.is_timeout_like msg = false →
        (Tracing.recordWrite (.err msg) m).failure = m.failure + 1 ∧
        (Tracing.recordWrite (.err msg) m).timeout = m.timeout ∧
        (Tracing.recordWrite (.err msg) m).success = m.success) ∧
    (∀ m, (Tracing.recordWrite .ok m).success = m.success + 1 ∧
        (Tracing.recordWrite .ok m).failure = m.failure ∧
        (Tracing.recordWrite .ok m).timeout = m.timeout) := by
  refine ⟨?_, ?_, ?_, ?_, ?_, ?_, ?_, ?_, ?_, ?_⟩ <;>
    intros <;>
    simp_all [Initial.writeAttemptMetrics, Initial.Metrics.writeFailTotal,
      MultiDB.recordWrite, Tracing.recordWrite] <;>
    omega

/-- Claim C1 witness: the classifier conclusions evaluated at concrete
timeout-like and non-timeout error messages. -/
theorem C1_outcome_classifier_witness :
    ((Initial.writeAttemptMetrics (.sqlErr "connection timed out".data) Initial.zeroMetrics).writeFailTotal =
        Initial.zeroMetrics.writeFailTotal + 1 ∧
     (Initial.writeAttemptMetrics (.sqlErr "connection timed out".data) Initial.zeroMetrics).writeFailTimeout =
        Initial.zeroMetrics.writeFailTimeout + 1 ∧
     (Initial.writeAttemptMetrics (.sqlErr "connection timed out".data) Initial.zeroMetrics).writeSuccess =
        Initial.zeroMetrics.writeSuccess) ∧
    ((Initial.writeAttemptMetrics (.sqlErr "duplicate key value".data) Initial.zeroMetrics).writeFailTotal =
        Initial.zeroMetrics.writeFailTotal + 1 ∧
     (Initial.writeAttemptMetrics (.sqlErr "duplicate key value".data) Initial.zeroMetrics).writeFailTimeout =
        Initial.zeroMetrics.writeFailTimeout ∧
     (Initial.writeAttemptMetrics (.sqlErr "duplicate key value".data) Initial.zeroMetrics).writeSuccess =
        Initial.zeroMetrics.writeSuccess) ∧
    ((Tracing.recordWrite (.err "server timeout reached".data) Tracing.zeroT).failure =
        Tracing.zeroT.failure + 1 ∧
     (Tracing.recordWrite (.err "server timeout reached".data) Tracing.zeroT).timeout =
        Tracing.zeroT.timeout + 1 ∧
     (Tracing.recordWrite (.err "server timeout reached".data) Tracing.zeroT).success =
        Tracing.zeroT.success) ∧
    ((Tracing.recordWrite (.err "disk full".data) Tracing.zeroT).failure =
        Tracing.zeroT.failure + 1 ∧
     (Tracing.recordWrite (.err "disk full".data) Tracing.zeroT).timeout =
        Tracing.zeroT.timeout ∧
     (Tracing.recordWrite (.err "disk full".data) Tracing.zeroT).success =
        Tracing.zeroT.success) :=
  ⟨C1_outcome_classifier.1 _ _ (by decide),
   C1_outcome_classifier.2.1 _ _ (by decide),
   C1_outcome_classifier.2.2.2.2.2.2.2.1 _ _ (by decide),
   C1_outcome_classifier.2.2.2.2.2.2.2.2.1 _ _ (by decide)⟩

/-- Claim C5 counterexample: in the multi-database variant an attempt
failing with an OperationalError increments two outcome-kind counters
(failure and timeout), so it is false that exactly one outcome-kind counter
is incremented per completed attempt. -/
theorem C5_counterexample :
    (MultiDB.recordWrite (.opErr "connection timed out".data) MultiDB.zeroW).histObs = 1 ∧
    (MultiDB.recordWrite (.opErr "connection timed out".data) MultiDB.zeroW).failure = 1 ∧
    (MultiDB.recordWrite (.opErr "connection timed out".data) MultiDB.zeroW).timeout = 1 ∧
    ¬((MultiDB.recordWrite (.opErr "connection timed out".data) MultiDB.zeroW).success +
        (MultiDB.recordWrite (.opErr "connection timed out".data) MultiDB.zeroW).failure +
        (MultiDB.recordWrite (.opErr "connection timed out".data) MultiDB.zeroW).timeout = 1) := by
  decide

/-- Claim C5 as amended: for every completed write attempt, in each
variant, exactly one latency observation is recorded and exactly one of the
success/failure counters is incremented (the timeout counter is an
additional mark on timeout-like failures); no attempt is dropped and none
is double-counted in the success/failure partition. -/
theorem C5_attempt_accounting :
    (∀ res m,
        (Initial.writeAttemptMetrics res m).writeHistObs = m.writeHistObs + 1 ∧
        ((Initial.writeAttemptMetrics res m).writeSuccess = m.writeSuccess + 1 ∧
            (Initial.writeAttemptMetrics res m).writeFailTotal = m.writeFailTotal ∨
          (Initial.writeAttemptMetrics res m).writeSuccess = m.writeSuccess ∧
            (Initial.writeAttemptMetrics res m).writeFailTotal = m.writeFailTotal + 1)) ∧
    (∀ res m,
        (MultiDB.recordWrite res m).histObs = m.histObs + 1 ∧
        ((MultiDB.recordWrite res m).success = m.success + 1 ∧
            (MultiDB.recordWrite res m).failure = m.failure ∨
          (MultiDB.recordWrite res m).success = m.success ∧
            (MultiDB.recordWrite res m).failure = m.failure + 1)) ∧
    (∀ res m,
        (Tracing.recordWrite res m).histObs = m.histObs + 1 ∧
        ((Tracing.recordWrite res m).success = m.success + 1 ∧
            (Tracing.recordWrite res m).failure = m.failure ∨
          (Tracing.recordWrite res m).success = m.success ∧
            (Tracing.recordWrite res m).failure = m.failure + 1)) := by
  refine ⟨?_, ?_, ?_⟩ <;> intro res m <;> cases res <;>
    simp [Initial.writeAttemptMetrics, Initial.Metrics.writeFailTotal,
      MultiDB.recordWrite, Tracing.recordWrite] <;>
    first
      | omega
      | (split_ifs <;> omega)

/-- Claim C6 counterexample: in the tracing variant with
SIMULATE_DB_FAILURE set to true, an attempt at wall-clock second 5 does not
raise the synthetic error — the gate also requires the second to be a
multiple of 10 — so the attempt succeeds and the success counter
increments, refuting deterministic failure on every attempt. -/
theorem C6_counterexample :
    Tracing.simulate_cond (some "true".data) 5 = false ∧
    (Tracing.write_timestamp_to_db (some "true".data) 5 .ok Tracing.zeroT).success =
      Tracing.zeroT.success + 1 ∧
    (Tracing.write_timestamp_to_db (some "true".data) 5 .ok Tracing.zeroT).failure = 0 ∧
    (Tracing.write_timestamp_to_db (some "true".data) 5 .ok Tracing.zeroT).timeout = 0 := by
  decide

lemma MultiDB_targetPass_success (simEnv : Option PyStr.Str)
    (o : Nat → PyStr.Str → MultiDB.PgWriteResult) (i : Nat) (acc : MultiDB.MSt)
    (nm : PyStr.Str) (h : MultiDB.simulate_db_failure simEnv = true) :
    ∀ k, ((MultiDB.targetPass simEnv o i acc nm).metrics k).success = (acc.metrics k).success := by
  intro k
  by_cases hk : k = nm <;>
    simp [MultiDB.targetPass, MultiDB.write_timestamp_to_db, MultiDB.recordWrite, h, hk]

lemma MultiDB_fold_success (simEnv : Option PyStr.Str)
    (o : Nat → PyStr.Str → MultiDB.PgWriteResult) (i : Nat)
    (h : MultiDB.simulate_db_failure simEnv = true) :
    ∀ (configs : List PyStr.Str) (acc : MultiDB.MSt) (k : PyStr.Str),
      ((configs.foldl (MultiDB.targetPass simEnv o i) acc).metrics k).success =
        (acc.metrics k).success := by
  intro configs
  induction configs with
  | nil => intro acc k; rfl
  | cons c cs ih =>
      intro acc k
      rw [List.foldl_cons, ih, MultiDB_targetPass_success simEnv o i acc c h]

lemma MultiDB_periodicIteration_success (simEnv : Option PyStr.Str)
    (o : Nat → PyStr.Str → MultiDB.PgWriteResult) (configs : List PyStr.Str)
    (interval : Nat) (s : MultiDB.MSt) (h : MultiDB.simulate_db_failure simEnv = true) :
    ∀ k, ((MultiDB.periodicIteration simEnv o configs interval s).metrics k).success =
      (s.metrics k).success := by
  intro k
  simp [MultiDB.periodicIteration, MultiDB_fold_success simEnv o s.iters h configs s k]

lemma MultiDB_writer_success (simEnv : Option PyStr.Str)
    (o : Nat → PyStr.Str → MultiDB.PgWriteResult) (configs : List PyStr.Str)
    (interval : Nat) (h : MultiDB.simulate_db_failure simEnv = true) :
    ∀ (n : Nat) (s : MultiDB.MSt) (k : PyStr.Str),
      ((MultiDB.periodic_db_writer simEnv o configs interval n s).metrics k).success =
        (s.metrics k).success := by
  intro n
  induction n with
  | zero => intro s k; rfl
  | succ n ih =>
      intro s k
      rw [MultiDB.periodic_db_writer, ih,
        MultiDB_periodicIteration_success simEnv o configs interval s h]

/-- Claim C6 as amended: with SIMULATE_DB_FAILURE true the multi-database
variant raises the synthetic OperationalError on every attempt — each
attempt increments both the failure and the timeout counter, the success
counter never moves over any number of scheduler passes and the loop keeps
running — while the tracing variant raises it exactly on attempts whose
wall-clock second is divisible by 10 and otherwise performs the real
write. -/
theorem C6_simulated_failure :
    (∀ env name real m, MultiDB.simulate_db_failure env = true →
        (MultiDB.write_timestamp_to_db env name real m).failure = m.failure + 1 ∧
        (MultiDB.write_timestamp_to_db env name real m).timeout = m.timeout + 1 ∧
        (MultiDB.write_timestamp_to_db env name real m).success = m.success) ∧
    (∀ env o configs interval n s, MultiDB.simulate_db_failure env = true →
        (∀ k, ((MultiDB.periodic_db_writer env o configs interval n s).metrics k).success =
            (s.metrics k).success) ∧
        (MultiDB.periodic_db_writer env o configs interval n s).iters = s.iters + n) ∧
    (∀ env second real m, Tracing.simulate_cond env second = true →
        (Tracing.write_timestamp_to_db env second real m).failure = m.failure + 1 ∧
        (Tracing.write_timestamp_to_db env second real m).timeout = m.timeout + 1 ∧
        (Tracing.write_timestamp_to_db env second real m).success = m.success) ∧
    (∀ env second real m, Tracing.simulate_cond env second = false →
        Tracing.write_timestamp_to_db env second real m = Tracing.recordWrite real m) := by
  refine ⟨?_, ?_, ?_, ?_⟩
  · intro env name real m h
    simp [MultiDB.write_timestamp_to_db, MultiDB.recordWrite, h]
  · intro env o configs interval n s h
    exact ⟨MultiDB_writer_success env o configs interval h n s,
      MultiDB_writer_iters env o configs interval n s⟩
  · intro env second real m h
    simp [Tracing.write_timestamp_to_db, Tracing.recordWrite, h, Tracing.is_timeout_like]
    decide
  · intro env second real m h
    simp [Tracing.write_timestamp_to_db, h]

/-- Claim C6 witness: the simulated-failure conclusions evaluated on
concrete environments and seconds. -/
theorem C6_simulated_failure_witness :
    ((MultiDB.write_timestamp_to_db (some "true".data) "db1".data .ok MultiDB.zeroW).failure =
        MultiDB.zeroW.failure + 1 ∧
     (MultiDB.write_timestamp_to_db (some "true".data) "db1".data .ok MultiDB.zeroW).timeout =
        MultiDB.zeroW.timeout + 1 ∧
     (MultiDB.write_timestamp_to_db (some "true".data) "db1".data .ok MultiDB.zeroW).success =
        MultiDB.zeroW.success) ∧
    ((Tracing.write_timestamp_to_db (some "true".data) 20 .ok Tracing.zeroT).failure =
        Tracing.zeroT.failure + 1 ∧
     (Tracing.write_timestamp_to_db (some "true".data) 20 .ok Tracing.zeroT).timeout =
        Tracing.zeroT.timeout + 1 ∧
     (Tracing.write_timestamp_to_db (some "true".data) 20 .ok Tracing.zeroT).success =
        Tracing.zeroT.success) ∧
    Tracing.write_timestamp_to_db (some "false".data) 20 .ok Tracing.zeroT =
      Tracing.recordWrite .ok Tracing.zeroT :=
  ⟨C6_simulated_failure.1 _ _ _ _ (by decide),
   C6_simulated_failure.2.2.1 _ _ _ _ (by decide),
   C6_simulated_failure.2.2.2 _ _ _ _ (by decide)⟩

/-- Claim C9: the health check returns 200 with the healthy body exactly
when a live engine exists and the trivial probe succeeds, returns 500 with
a body carrying the reason when the engine is absent or the probe raises,
and leaves the Connection Manager state unchanged. -/
theorem C9_health_endpoint (probe : Nat → Option PyStr.Str) (s : Initial.St) :
    (Initial.health_check probe s).1 = s ∧
    (((Initial.health_check probe s).2.1 = 200 ∧
        (Initial.health_check probe s).2.2 = Initial.HealthBody.healthy) ↔
      ∃ eid, s.engine = some eid ∧ probe eid = none) ∧
    (s.engine = none →
      (Initial.health_check probe s).2 = (500, Initial.HealthBody.unhealthyNoEngine)) ∧
    (∀ eid msg, s.engine = some eid → probe eid = some msg →
      (Initial.health_check probe s).2 = (500, Initial.HealthBody.unhealthyProbe msg)) := by
  cases hs : s.engine with
  | none => simp [Initial.health_check, hs]
  | some eid =>
      cases hp : probe eid <;>
        simp [Initial.health_check, hs, hp] <;>
        intro eid' msg' he <;> simp_all

/-- Claim C9 witness: the health check evaluated with no engine, with a
failing probe, and with a healthy engine. -/
theorem C9_health_endpoint_witness :
    (Initial.health_check (fun _ => none) (Initial.startState Initial.zeroMetrics)).2 =
      (500, Initial.HealthBody.unhealthyNoEngine) ∧
    (Initial.health_check (fun _ => some "probe failed".data)
        { Initial.startState Initial.zeroMetrics with engine := some 3 }).2 =
      (500, Initial.HealthBody.unhealthyProbe "probe failed".data) ∧
    ((Initial.health_check (fun _ => none)
        { Initial.startState Initial.zeroMetrics with engine := some 3 }).2.1 = 200 ∧
     (Initial.health_check (fun _ => none)
        { Initial.startState Initial.zeroMetrics with engine := some 3 }).2.2 =
       Initial.HealthBody.healthy) :=
  ⟨(C9_health_endpoint _ _).2.2.1 rfl,
   (C9_health_endpoint _ _).2.2.2 3 _ rfl rfl,
   (C9_health_endpoint _ _).2.1.mpr ⟨3, rfl, rfl⟩⟩

/-- Claim C10 counterexample: for DB_NAME "mydatabase" (neither ":memory:"
nor ending in ".db") get_db_connection opens the file-backed SQLite
database "mydatabase", not a fresh in-memory connection, so the claim's
in-memory fallback is false as stated. -/
theorem C10_counterexample :
    ¬("mydatabase".data = ":memory:".data) ∧
    PyStr.hasEnding ".db".data "mydatabase".data = false ∧
    Tracing.get_db_connection "mydatabase".data =
      Tracing.SqliteTarget.fileDb "mydatabase".data ∧
    ¬(Tracing.get_db_connection "mydatabase".data = Tracing.SqliteTarget.memoryDb) := by
  decide

/-- Claim C10 as amended: for every DB_NAME other than ":memory:" that
does not end in ".db", get_db_connection silently opens a local file-backed
SQLite database named DB_NAME instead of the configured external database;
the fresh in-memory fallback connection is opened exactly when DB_NAME ends
with ".db" (the unimplemented external-database stub).  Either way nothing
reaches an external target. -/
theorem C10_sqlite_fallback :
    (∀ nm, ¬(nm = ":memory:".data) → PyStr.hasEnding ".db".data nm = false →
        Tracing.get_db_connection nm = Tracing.SqliteTarget.fileDb nm) ∧
    (∀ nm, PyStr.hasEnding ".db".data nm = true →
        Tracing.get_db_connection nm = Tracing.SqliteTarget.memoryDb) := by
  constructor
  · intro nm h1 h2
    simp [Tracing.get_db_connection, Tracing.sqliteConnect, h1, h2]
  · intro nm h
    have h1 : ¬(nm = ":memory:".data) := by
      intro he; subst he; exact absurd h (by decide)
    simp [Tracing.get_db_connection, Tracing.sqliteConnect, h1, h]

/-- Claim C10 witness: the connection routing evaluated at a plain name
and at a name ending in ".db". -/
theorem C10_sqlite_fallback_witness :
    Tracing.get_db_connection "mydb".data = Tracing.SqliteTarget.fileDb "mydb".data ∧
    Tracing.get_db_connection "app.db".data = Tracing.SqliteTarget.memoryDb :=
  ⟨C10_sqlite_fallback.1 _ (by decide) (by decide),
   C10_sqlite_fallback.2 _ (by decide)⟩

/-- Claim C3 (code-bug evaluation): after a failed write the code calls
init_db_engine inline, but when all 5 reconnect attempts raise
non-SQLAlchemy exceptions the generic handler never clears the global
engine — contradicting the claim (and the source's own comment that the
engine is ensured to be None when all retries fail).  At the concrete
input below the stale handle 7 survives re-initialization (after one loop
pass the engine is still 7 even though the write failed and 5 fresh
connects were attempted) and the next attempt reuses handle 7. -/
theorem C3_stale_engine_reused :
    (Initial.write_timestamp_to_db Fixtures.coAllOtherFail Fixtures.woRefused 1
        { Initial.startState Initial.zeroMetrics with engine := some 7 }).engine = some 7 ∧
    (Initial.write_timestamp_to_db Fixtures.coAllOtherFail Fixtures.woRefused 1
        { Initial.startState Initial.zeroMetrics with engine := some 7 }).metrics.writeFailTotal = 1 ∧
    (Initial.write_timestamp_to_db Fixtures.coAllOtherFail Fixtures.woRefused 1
        { Initial.startState Initial.zeroMetrics with engine := some 7 }).connectAttempts = 5 ∧
    (Initial.write_timestamp_to_db Fixtures.coAllOtherFail Fixtures.woRefused 2
        { Initial.startState Initial.zeroMetrics with engine := some 7 }).usedEngines = [7, 7] := by
  decide
